import Mathlib

/-!
Shallow embedding of the account-management backend of the ryde-uber-clone
repository (Express + PostgreSQL).  Tables are lists of row structures, SQL
row projections are association lists from column names to SQL values, JWTs
are structured values carrying their payload and signing secret, and each
controller is a pure function from the request data and the database state to
a response together with the new database state.  External collaborators
(bcrypt, cloudinary, the RNG) are passed in as function or stream parameters.
-/

namespace RydeSpec

/-- A SQL value as it appears in a selected row. -/
inductive SqlValue
  | int (n : Nat)
  | text (s : String)
  | nullv
  | boolean (b : Bool)
deriving Repr, DecidableEq

/-- Turns an optional text column into a SQL value (NULL when absent). -/
def optText : Option String → SqlValue
  | some s => SqlValue.text s
  | none => SqlValue.nullv

/-- A row of the `users` table (schema from TABLES.md). -/
structure UserRow where
  id : Nat
  firstname : String
  lastname : String
  email : String
  password : String
  avatar : Option String
  phone_number : Option String
  role : String
  is_verified : Bool
  refresh_token : Option String
  created_at : Nat
deriving Repr, DecidableEq

/-- A row of the `otp_codes` table. -/
structure OtpRow where
  id : Nat
  user_id : Nat
  otp : String
  otp_expiry : Nat
  created_at : Nat
deriving Repr, DecidableEq

/-! ## Error model

`ApiError` carries a status code; every other thrown value is a plain
`Error`.  The controllers import `handleError` from `api-error.utils`, a file
absent from the snapshot; it is modelled from the spec below. -/

/-- A thrown JavaScript value: either an `ApiError` (with a status code) or a
plain `Error` (only a message). -/
inductive Thrown
  | api (statusCode : Nat) (message : String)
  | plain (message : String)
deriving Repr, DecidableEq

/-- Modelled from the spec: `handleError` from the missing
`api-error.utils` module.  Spec section 7: each typed error kind maps to its
own status code and message, and a generic 500 with a non-leaking fallback
message is used for unexpected (untyped) errors. -/
def handleError (e : Thrown) (fallback : String) : Nat × String :=
  match e with
  | Thrown.api statusCode message => (statusCode, message)
  | Thrown.plain _ => (500, fallback)

/-! ## JWT model

`jwt.sign` produces a value carrying its payload and the secret it was
signed with; `jwt.verify` succeeds exactly when the secret matches and the
token is not expired, returning the decoded payload. -/

/-- The two signing secrets from the environment. -/
inductive Secret
  | access
  | refresh
deriving Repr, DecidableEq

/-- A signed JWT: payload `{ userId }` or `{ userId, role }`, the secret it
was signed with, and whether its expiry has passed. -/
structure Jwt where
  userId : Nat
  role : Option String
  secret : Secret
  expired : Bool
deriving Repr, DecidableEq

/-- `jwt.verify(token, secret)`: returns the decoded payload when the
signature matches `secret` and the token is unexpired, otherwise throws
(modelled as `none`). -/
def jwtVerify (t : Jwt) (s : Secret) : Option Jwt :=
  if t.secret = s ∧ t.expired = false then some t else none

/-- `generateAuthTokenUtils` from
`utils/generate-auth-token.utils.ts`: signs `{ userId, role }` with the
access-token secret. -/
def generateAuthTokenUtils (userId : Nat) (role : String) : Jwt :=
  { userId := userId, role := some role, secret := Secret.access, expired := false }

/-- `generateRefreshTokenUtils` from
`utils/generate-refresh-token.utils.ts`: signs `{ userId }` with the
refresh-token secret. -/
def generateRefreshTokenUtils (userId : Nat) : Jwt :=
  { userId := userId, role := none, secret := Secret.refresh, expired := false }

/-- `generateAccessAndRefreshTokens` from
`utils/generate-access-and-refresh-tokens.utils.ts`: generates both tokens
and returns them.  Note that the source performs no database access: the
refresh token is not written anywhere. -/
def generateAccessAndRefreshTokens (userId : Nat) (role : String) : Jwt × Jwt :=
  (generateAuthTokenUtils userId role, generateRefreshTokenUtils userId)

/-! ## Shared request utilities -/

/-- `SELECT * FROM users WHERE email = $1 LIMIT 1`: the first row of the
table whose email matches. -/
def findUserByEmail (users : List UserRow) (email : String) : Option UserRow :=
  users.find? (fun u => u.email == email)

/-- `validateRequiredFieldsUtils` from
`utils/validate-required-fields.utils.ts`: collects the names of fields whose
value is falsy (modelled: the empty string) and reports them, or passes. -/
def validateRequiredFieldsUtils (fields : List (String × String)) : Option String :=
  let missingFields := (fields.filter (fun f => f.2 == "")).map Prod.fst
  if missingFields.length > 0 then
    some (("Missing required fields: ") ++ (joinComma missingFields))
  else
    none
where
  /-- `missingFields.join(', ')`. -/
  joinComma : List String → String
    | [] => ""
    | [s] => s
    | s :: rest => s ++ (", ") ++ joinComma rest

/-- `checkUserExistsUtils` from `utils/check-user-exists.utils.ts`: looks the
email up; throws a plain `Error` when existence does not match
`expectUserToExist`, otherwise returns the found row (if any). -/
def checkUserExistsUtils (users : List UserRow) (email : String)
    (expectUserToExist : Bool) : Except Thrown (Option UserRow) :=
  let found := findUserByEmail users email
  if expectUserToExist && !found.isSome then
    Except.error (Thrown.plain ("User does not exist"))
  else if !expectUserToExist && found.isSome then
    Except.error (Thrown.plain ("User already exists"))
  else
    Except.ok found

/-! ## OTP generator (`utils/otp-generator.ts`) -/

/-- The digit alphabet. -/
def digitChars : String := "0123456789"

/-- The lower-case alphabet. -/
def lowerCaseChars : String := "abcdefghijklmnopqrstuvwxyz"

/-- The upper-case alphabet, `lowerCaseAlphabets.toUpperCase()`. -/
def upperCaseChars : String := lowerCaseChars.toUpper

/-- The special-character alphabet. -/
def specialCharsSet : String := "#!&@"

/-- The `GenerateOptions` interface with its source defaults. -/
structure GenerateOptions where
  digits : Bool := true
  lowerCaseAlphabets : Bool := true
  upperCaseAlphabets : Bool := true
  specialChars : Bool := true
deriving Repr, DecidableEq

/-- The concatenated allowed alphabet, as computed in `otpGenerator`. -/
def allowedChars (o : GenerateOptions) : String :=
  (if o.digits then digitChars else "") ++
  (if o.lowerCaseAlphabets then lowerCaseChars else "") ++
  (if o.upperCaseAlphabets then upperCaseChars else "") ++
  (if o.specialChars then specialCharsSet else "")

/-- Outcome of one run of the generator. -/
inductive OtpOutcome
  | err (msg : String)
  | outOfRandom
  | generated (s : String)
deriving Repr, DecidableEq

/-- The `while` loop of `otpGenerator`.  `crypto.randomInt(0, n)` is modelled
by consuming one entry `e` of the random stream and using `e % n`.  The loop
keeps drawing until the target length is reached, skipping a draw when it
would put the digit zero in the first position while digits are enabled; a
run that exhausts the finite model stream is reported as `none` (the real
loop would simply keep drawing). -/
def otpLoop (allowed : List Char) (includeDigits : Bool) (targetLen : Nat) :
    List Nat → List Char → Option (List Char)
  | [], acc => if targetLen ≤ acc.length then some acc else none
  | e :: rest, acc =>
    if targetLen ≤ acc.length then some acc
    else if acc.isEmpty && includeDigits && (allowed.getD (e % allowed.length) ' ' == '0') then
      otpLoop allowed includeDigits targetLen rest acc
    else
      otpLoop allowed includeDigits targetLen rest (acc ++ [allowed.getD (e % allowed.length) ' '])

/-- `otpGenerator(length, options)` with the random stream made explicit:
throws when no character class is enabled, otherwise runs the drawing
loop. -/
def otpGenerator (length : Nat) (o : GenerateOptions) (rand : List Nat) : OtpOutcome :=
  if (allowedChars o).toList.isEmpty then
    OtpOutcome.err ("No characters available to generate password. Check your options.")
  else
    match otpLoop (allowedChars o).toList o.digits length rand [] with
    | some cs => OtpOutcome.generated (String.mk cs)
    | none => OtpOutcome.outOfRandom

/-! ## Controllers (`controllers/auth.controllers.ts`) -/

/-- The sanitized user object built by `signIn`. -/
structure SafeUser where
  id : Nat
  email : String
  firstname : String
  lastname : String
  role : String
deriving Repr, DecidableEq

/-- The body of a successful sign-in response (also mirrored into the two
token cookies). -/
structure SignInSuccess where
  user : SafeUser
  accessToken : Jwt
  refreshToken : Jwt
deriving Repr, DecidableEq

/-- Result of the sign-in controller. -/
inductive SignInResult
  | failure (statusCode : Nat) (message : String)
  | success (body : SignInSuccess)
deriving Repr, DecidableEq

/-- `signIn`: validates the fields, requires the user to exist and be
verified, checks the password (`verify` stands for the external
`bcrypt.compare`), then generates the token pair and responds.  The users
table is returned unchanged from every branch: the source contains no
`UPDATE`, so the generated refresh token is never persisted. -/
def signIn (verify : String → String → Bool) (users : List UserRow)
    (email password : String) : SignInResult × List UserRow :=
  match validateRequiredFieldsUtils [(("email"), email), (("password"), password)] with
  | some errmsg => (SignInResult.failure 400 errmsg, users)
  | none =>
    match checkUserExistsUtils users email true with
    | Except.error e =>
      let r := handleError e ("Something went wrong while signing in")
      (SignInResult.failure r.1 r.2, users)
    | Except.ok none =>
      -- unreachable: with `expectUserToExist = true` a missing user throws;
      -- reading a field of `undefined` would itself throw, landing in the
      -- generic handler
      (SignInResult.failure 500 ("Something went wrong while signing in"), users)
    | Except.ok (some userData) =>
      if userData.is_verified = false then
        (SignInResult.failure 400 ("User is not verified"), users)
      else if verify password userData.password = false then
        (SignInResult.failure 401 ("Invalid credentials"), users)
      else
        let tokens := generateAccessAndRefreshTokens userData.id userData.role
        let safeUser : SafeUser :=
          { id := userData.id, email := userData.email, firstname := userData.firstname,
            lastname := userData.lastname, role := userData.role }
        (SignInResult.success
          { user := safeUser, accessToken := tokens.1, refreshToken := tokens.2 }, users)

/-- Result of the refresh-token controller. -/
inductive RefreshResult
  | failure (statusCode : Nat) (message : String)
  | success (accessToken : Jwt) (refreshToken : Jwt)
deriving Repr, DecidableEq

/-- `refreshAccessToken`: requires a token, verifies it against the refresh
secret (`jwt.verify` throws a plain error on failure, handled by the generic
handler), resolves the embedded user id, and issues a fresh pair.  The
presented token is never compared with any stored value and the users table
is never written. -/
def refreshAccessToken (users : List UserRow) (incomingRefreshToken : Option Jwt) :
    RefreshResult × List UserRow :=
  match incomingRefreshToken with
  | none =>
    -- `throw new ApiError(401, 'Unauthorized request')`
    let r := handleError (Thrown.api 401 ("Unauthorized request")) ("Invalid refresh token")
    (RefreshResult.failure r.1 r.2, users)
  | some tok =>
    match jwtVerify tok Secret.refresh with
    | none =>
      -- `jwt.verify` throws a plain (untyped) error
      let r := handleError (Thrown.plain ("jwt verification failed")) ("Invalid refresh token")
      (RefreshResult.failure r.1 r.2, users)
    | some decodedToken =>
      match users.find? (fun u => u.id == decodedToken.userId) with
      | none =>
        let r := handleError (Thrown.api 401 ("Invalid refresh token")) ("Invalid refresh token")
        (RefreshResult.failure r.1 r.2, users)
      | some u =>
        let tokens := generateAccessAndRefreshTokens u.id u.role
        (RefreshResult.success tokens.1 tokens.2, users)

/-- A sign-up request: the five body fields plus the optional uploaded
avatar file path (`req.file?.path`). -/
structure SignUpRequest where
  firstname : String
  lastname : String
  email : String
  password : String
  role : String
  avatarFile : Option String
deriving Repr, DecidableEq

/-- The `RETURNING id, email, firstname, lastname, avatar` projection of the
freshly inserted row, which becomes the 201 response data. -/
def signUpReturning (u : UserRow) : List (String × SqlValue) :=
  [(("id"), SqlValue.int u.id), (("email"), SqlValue.text u.email),
   (("firstname"), SqlValue.text u.firstname), (("lastname"), SqlValue.text u.lastname),
   (("avatar"), optText u.avatar)]

/-- Result of the sign-up controller. -/
inductive SignUpResult
  | failure (statusCode : Nat) (message : String)
  | success (statusCode : Nat) (data : List (String × SqlValue)) (message : String)
deriving Repr, DecidableEq

/-- `signUp`: validates the five required fields, requires the email to be
free (`checkUserExistsUtils` with `expectUserToExist = false` throws a plain
error on a duplicate, handled by the generic handler), uploads the avatar if
provided (`upload` stands for `uploadOnCloudinary`), hashes the password
(`hash` stands for `bcrypt`), inserts the row (`newId` stands for the
server-generated serial id) and responds 201 with the returned projection. -/
def signUp (hash : String → String) (upload : String → Option String) (newId : Nat)
    (users : List UserRow) (r : SignUpRequest) : SignUpResult × List UserRow :=
  match validateRequiredFieldsUtils
      [(("firstname"), r.firstname), (("lastname"), r.lastname), (("email"), r.email),
       (("password"), r.password), (("role"), r.role)] with
  | some errmsg => (SignUpResult.failure 400 errmsg, users)
  | none =>
    match checkUserExistsUtils users r.email false with
    | Except.error e =>
      let res := handleError e ("Something went wrong while signing up")
      (SignUpResult.failure res.1 res.2, users)
    | Except.ok _ =>
      let avatar := match r.avatarFile with
        | some p => upload p
        | none => none
      let hashedPassword := hash r.password
      let newRow : UserRow :=
        { id := newId, firstname := r.firstname, lastname := r.lastname, email := r.email,
          password := hashedPassword, avatar := avatar, phone_number := none, role := r.role,
          is_verified := false, refresh_token := none, created_at := 0 }
      (SignUpResult.success 201 (signUpReturning newRow) ("User signed up successfully"),
        users ++ [newRow])

/-- The joint database state the OTP-verification controller works on. -/
structure DbState where
  users : List UserRow
  otps : List OtpRow
deriving Repr, DecidableEq

/-- `SELECT * FROM otp_codes WHERE user_id = $1 ORDER BY created_at DESC
LIMIT 1`: the row with the greatest `created_at` among the user's OTP rows
(first such row on ties). -/
def latestOtpFor (otps : List OtpRow) (uid : Nat) : Option OtpRow :=
  (otps.filter (fun o => o.user_id == uid)).foldl
    (fun acc o =>
      match acc with
      | none => some o
      | some b => if b.created_at < o.created_at then some o else some b)
    none

/-- `verifyOTP`: validates the fields, loads the user and their most recent
OTP row, sends the generic 400 when the code mismatches or the expiry has
passed — and then, because the source lacks a `return` there, unconditionally
deletes the OTP row, sets `is_verified = true` and attempts the 200 response.
The result lists every response send the handler attempts, in order. -/
def verifyOTP (now : Nat) (st : DbState) (email otp : String) :
    List (Nat × String) × DbState :=
  match validateRequiredFieldsUtils [(("email"), email), (("otp"), otp)] with
  | some errmsg => ([(400, errmsg)], st)
  | none =>
    match checkUserExistsUtils st.users email true with
    | Except.error e => ([handleError e ("Something went wrong while verifying email")], st)
    | Except.ok none => ([(500, ("Something went wrong while verifying email"))], st)
    | Except.ok (some userData) =>
      match latestOtpFor st.otps userData.id with
      | none => ([(400, ("No OTP found."))], st)
      | some otpData =>
        let firstSend :=
          if otpData.otp ≠ otp ∨ now > otpData.otp_expiry then
            [(400, ("Invalid or expired OTP."))]
          else []
        -- missing `return`: execution continues past the 400 send
        let otps' := st.otps.filter (fun o => !(o.id == otpData.id))
        let users' := st.users.map
          (fun u => if u.id == userData.id then { u with is_verified := true } else u)
        (firstSend ++ [(200, ("OTP verified successfully"))], ⟨users', otps'⟩)

/-! ## User controllers (`controllers/user.controllers.ts`) -/

/-- The `SELECT id, avatar, firstname, lastname, email, phone_number,
is_verified, created_at` projection shared by the user controllers. -/
def profileColumnsRow (u : UserRow) : List (String × SqlValue) :=
  [(("id"), SqlValue.int u.id), (("avatar"), optText u.avatar),
   (("firstname"), SqlValue.text u.firstname), (("lastname"), SqlValue.text u.lastname),
   (("email"), SqlValue.text u.email), (("phone_number"), optText u.phone_number),
   (("is_verified"), SqlValue.boolean u.is_verified), (("created_at"), SqlValue.int u.created_at)]

/-- `getAllUsers`: one query filtered by `is_verified = true AND role =
'user'`, answered with status 200 and the projected rows. -/
def getAllUsers (users : List UserRow) : Nat × List (List (String × SqlValue)) :=
  (200, (users.filter (fun u => u.is_verified && (u.role == ("user")))).map profileColumnsRow)

/-- `getUserById`: looks the row up by id and answers 200 with
`user.rows[0]` — which is simply absent when no row matched; the source has
no row-count check and never produces a 404. -/
def getUserById (users : List UserRow) (id : Nat) :
    Nat × Option (List (String × SqlValue)) :=
  (200, (users.find? (fun u => u.id == id)).map profileColumnsRow)

/-! ## Authentication middleware (`middlewares/verifyJWT.ts`, lines 7-32) -/

/-- What the middleware did: the response sends it attempted, in order, and
whether it invoked `next()` (the downstream handler). -/
structure MiddlewareOutcome where
  responses : List (Nat × String)
  handlerInvoked : Bool
deriving Repr, DecidableEq

/-- `verifyJWT`: passes `/sign-out` requests straight through; otherwise
requires a token and verifies it against the access secret, rejecting with
401 on absence or verification failure.  When the embedded user id resolves
to no row it sends a 401 — but, lacking a `return`, still falls through to
`next()`. -/
def verifyJWT (users : List UserRow) (path : String) (token : Option Jwt) :
    MiddlewareOutcome :=
  if path = ("/sign-out") then
    { responses := [], handlerInvoked := true }
  else
    match token with
    | none => { responses := [(401, ("Unauthorized request"))], handlerInvoked := false }
    | some t =>
      match jwtVerify t Secret.access with
      | none => { responses := [(401, ("Invalid access token"))], handlerInvoked := false }
      | some decodedToken =>
        match users.find? (fun u => u.id == decodedToken.userId) with
        | none =>
          -- missing `return`: the 401 send is followed by `next()`
          { responses := [(401, ("Invalid Access Token"))], handlerInvoked := true }
        | some _ => { responses := [], handlerInvoked := true }

/-! ## Demo values used by witnesses and counterexamples -/

/-- The `options` constant defined at the top of `auth.controllers.ts`. -/
def controllerOtpOptions : GenerateOptions :=
  { digits := true, lowerCaseAlphabets := true, upperCaseAlphabets := false,
    specialChars := true }

/-- A verified demo user row (the spec's Jane Doe scenario, after email
verification), with no stored refresh token. -/
def demoUser : UserRow :=
  { id := 1, firstname := "Jane", lastname := "Doe", email := "jane@x.com",
    password := "h:Secret123", avatar := none, phone_number := none, role := "user",
    is_verified := true, refresh_token := none, created_at := 0 }

/-- The same row before verification. -/
def demoUnverifiedUser : UserRow :=
  { demoUser with is_verified := false }

/-- An unexpired demo OTP row for the demo user. -/
def demoOtpRow : OtpRow :=
  { id := 7, user_id := 1, otp := "a1b2c3", otp_expiry := 100, created_at := 0 }

/-- The spec's sign-up scenario request. -/
def janeSignUpRequest : SignUpRequest :=
  { firstname := "Jane", lastname := "Doe", email := "jane@x.com",
    password := "Secret123", role := "user", avatarFile := none }

/-- A second sign-up request with the demo user's email but every other
field different. -/
def duplicateSignUpRequest : SignUpRequest :=
  { firstname := "Janet", lastname := "Smith", email := "jane@x.com",
    password := "Other999", role := "driver", avatarFile := none }

/-! ## Helper lemmas -/

/-- Validation passes when every supplied field is non-empty. -/
theorem validateRequiredFieldsUtils_none (fields : List (String × String))
    (h : ∀ f ∈ fields, f.2 ≠ "") : validateRequiredFieldsUtils fields = none := by
  have hfil : fields.filter (fun f => f.2 == "") = [] := by
    rw [List.filter_eq_nil_iff]
    intro f hf
    simpa using h f hf
  simp [validateRequiredFieldsUtils, hfil]

/-- `checkUserExistsUtils` in expect-present mode returns the found row. -/
theorem checkUserExistsUtils_found (users : List UserRow) (email : String) (u : UserRow)
    (h : findUserByEmail users email = some u) :
    checkUserExistsUtils users email true = Except.ok (some u) := by
  simp [checkUserExistsUtils, h]

/-- `checkUserExistsUtils` in expect-absent mode throws on a present row. -/
theorem checkUserExistsUtils_dup (users : List UserRow) (email : String) (u : UserRow)
    (h : findUserByEmail users email = some u) :
    checkUserExistsUtils users email false
      = Except.error (Thrown.plain ("User already exists")) := by
  simp [checkUserExistsUtils, h]

/-- `checkUserExistsUtils` in expect-absent mode passes on a fresh email. -/
theorem checkUserExistsUtils_fresh (users : List UserRow) (email : String)
    (h : findUserByEmail users email = none) :
    checkUserExistsUtils users email false = Except.ok none := by
  simp [checkUserExistsUtils, h]

/-- The refresh-token controller never modifies the users table. -/
theorem refreshAccessToken_snd (users : List UserRow) (t : Option Jwt) :
    (refreshAccessToken users t).2 = users := by
  unfold refreshAccessToken
  repeat' split
  all_goals rfl

/-- The drawn character always belongs to the alphabet. -/
theorem getD_mod_mem (l : List Char) (e : Nat) (h : l ≠ []) :
    l.getD (e % l.length) ' ' ∈ l := by
  have hlen : 0 < l.length := List.length_pos.mpr h
  have hlt : e % l.length < l.length := Nat.mod_lt _ hlen
  rw [List.getD_eq_getElem l ' ' hlt]
  exact List.getElem_mem hlt

/-- Soundness of the drawing loop: from an in-bounds accumulator whose
characters are drawn from the alphabet and whose first character is not a
zero digit (when digits are enabled), any completed run has exactly the
target length, stays inside the alphabet, and never starts with the digit
zero when digits are enabled. -/
theorem otpLoop_sound (allowed : List Char) (incD : Bool) (target : Nat) :
    ∀ (rand : List Nat) (acc out : List Char),
      allowed ≠ [] →
      acc.length ≤ target →
      (∀ c ∈ acc, c ∈ allowed) →
      (incD = true → acc.head? ≠ some ('0')) →
      otpLoop allowed incD target rand acc = some out →
      out.length = target ∧ (∀ c ∈ out, c ∈ allowed) ∧
        (incD = true → out.head? ≠ some ('0'))
  | [], acc, out, _, hle, hmem, hhead, hrun => by
    unfold otpLoop at hrun
    split at hrun
    · cases hrun
      exact ⟨Nat.le_antisymm hle (by assumption), hmem, hhead⟩
    · cases hrun
  | e :: rest, acc, out, hne, hle, hmem, hhead, hrun => by
    unfold otpLoop at hrun
    split at hrun
    · cases hrun
      exact ⟨Nat.le_antisymm hle (by assumption), hmem, hhead⟩
    · rename_i hlt
      have hlt' : acc.length < target := Nat.lt_of_not_le hlt
      split at hrun
      · exact otpLoop_sound allowed incD target rest acc out hne hle hmem hhead hrun
      · rename_i hskip
        refine otpLoop_sound allowed incD target rest
          (acc ++ [allowed.getD (e % allowed.length) ' ']) out hne ?_ ?_ ?_ hrun
        · simpa using hlt'
        · intro c hc
          rcases List.mem_append.mp hc with hc | hc
          · exact hmem c hc
          · rcases List.mem_singleton.mp hc with rfl
            exact getD_mod_mem allowed e hne
        · intro hD
          rcases hacc : acc with _ | ⟨a, acc'⟩
          · subst hacc
            simp only [List.nil_append, List.head?_cons, Ne, Option.some.injEq]
            intro hczero
            apply hskip
            rw [hczero, hD]
            decide
          · subst hacc
            simpa using hhead hD

/-! ## Claims about the token lifecycle (C1, C2, C7) -/

/-- C1 counterexample: a refresh token accepted once is accepted again.  With
the demo user, the first refresh-token request succeeds and rotates in a new
pair, yet a second request presenting the same old token succeeds as well,
issuing tokens instead of failing with a 401 AuthError. -/
theorem refreshAccessToken_reuse_accepted_cex :
    (refreshAccessToken [demoUser] (some (generateRefreshTokenUtils 1))).1
      = RefreshResult.success (generateAuthTokenUtils 1 ("user")) (generateRefreshTokenUtils 1) ∧
    (refreshAccessToken (refreshAccessToken [demoUser] (some (generateRefreshTokenUtils 1))).2
        (some (generateRefreshTokenUtils 1))).1
      = RefreshResult.success (generateAuthTokenUtils 1 ("user")) (generateRefreshTokenUtils 1) := by
  decide

/-- C1 amended: the refresh-token endpoint performs no reuse detection — it
never consults a stored token and never writes one — so after any accepted
refresh, presenting the same old token again is accepted identically and a
new pair is issued; it does not fail with AuthError. -/
theorem refreshAccessToken_no_reuse_detection (users : List UserRow) (t a r : Jwt)
    (h : (refreshAccessToken users (some t)).1 = RefreshResult.success a r) :
    (refreshAccessToken (refreshAccessToken users (some t)).2 (some t)).1
      = RefreshResult.success a r := by
  rw [refreshAccessToken_snd]
  exact h

/-- C1 amended, witness at the demo user. -/
theorem refreshAccessToken_no_reuse_detection_witness :
    (refreshAccessToken (refreshAccessToken [demoUser] (some (generateRefreshTokenUtils 1))).2
        (some (generateRefreshTokenUtils 1))).1
      = RefreshResult.success (generateAuthTokenUtils 1 ("user")) (generateRefreshTokenUtils 1) :=
  refreshAccessToken_no_reuse_detection [demoUser] (generateRefreshTokenUtils 1)
    (generateAuthTokenUtils 1 ("user")) (generateRefreshTokenUtils 1) (by decide)

/-- C2 counterexample: a successful sign-in of the demo user issues a refresh
token, yet the users table afterwards is exactly the table before, so the
demo user's `refresh_token` column still holds NULL rather than the token
just issued. -/
theorem signIn_refresh_token_not_persisted_cex :
    (signIn (fun _ _ => true) [demoUser] ("jane@x.com") ("Secret123")).1
      = SignInResult.success
          { user := { id := 1, email := ("jane@x.com"), firstname := ("Jane"),
                      lastname := ("Doe"), role := ("user") },
            accessToken := generateAuthTokenUtils 1 ("user"),
            refreshToken := generateRefreshTokenUtils 1 } ∧
    (signIn (fun _ _ => true) [demoUser] ("jane@x.com") ("Secret123")).2 = [demoUser] ∧
    demoUser.refresh_token = none := by
  decide

/-- C2 amended: sign-in issues the token pair and returns it in the body and
cookies, but never updates the users table — the `refresh_token` column
keeps whatever value it had before, on every code path. -/
theorem signIn_leaves_users_table_unchanged (verify : String → String → Bool)
    (users : List UserRow) (email password : String) :
    (signIn verify users email password).2 = users := by
  unfold signIn
  repeat' split
  all_goals rfl

/-- C7: a sign-in request for an existing but unverified user fails with the
400 StateError response and the handler returns before any token is
generated, whatever the password-hash comparison would say. -/
theorem signIn_unverified_user_rejected (verify : String → String → Bool)
    (users : List UserRow) (email password : String) (u : UserRow)
    (he : email ≠ "") (hp : password ≠ "")
    (hu : findUserByEmail users email = some u) (hv : u.is_verified = false) :
    signIn verify users email password
      = (SignInResult.failure 400 ("User is not verified"), users) := by
  have hval : validateRequiredFieldsUtils
      [(("email"), email), (("password"), password)] = none := by
    refine validateRequiredFieldsUtils_none _ ?_
    intro f hf
    simp only [List.mem_cons, List.not_mem_nil, or_false] at hf
    rcases hf with rfl | rfl
    · exact he
    · exact hp
  simp [signIn, hval, checkUserExistsUtils_found users email u hu, hv]

/-- C7 witness: the unverified demo user is rejected even though the
password comparison function accepts everything. -/
theorem signIn_unverified_user_rejected_witness :
    signIn (fun _ _ => true) [demoUnverifiedUser] ("jane@x.com") ("Secret123")
      = (SignInResult.failure 400 ("User is not verified"), [demoUnverifiedUser]) :=
  signIn_unverified_user_rejected (fun _ _ => true) [demoUnverifiedUser]
    ("jane@x.com") ("Secret123") demoUnverifiedUser
    (by decide) (by decide) (by decide) (by decide)

/-! ## Claims about OTP verification, middleware, and sign-up (C3 — C6) -/

/-- C3: evaluation of `verifyOTP` at the failing input.  The supplied code
differs from the stored one and the expiry has not passed, so only the
generic 400 should be sent and nothing changed; instead, the missing
`return` lets execution continue: the OTP row is deleted, `is_verified` is
flipped to true, and a second (200) response send is attempted. -/
theorem verifyOTP_mutates_despite_invalid_otp :
    verifyOTP 50 ⟨[demoUnverifiedUser], [demoOtpRow]⟩ ("jane@x.com") ("zzzzzz")
      = ([(400, ("Invalid or expired OTP.")), (200, ("OTP verified successfully"))],
         ⟨[demoUser], []⟩) ∧
    demoUser.is_verified = true := by
  decide

/-- C4 counterexample: a request to the guarded POST /auth/sign-out route
with no token at all is passed straight to the downstream handler, with no
401 response — the middleware skips every check for that path. -/
theorem verifyJWT_sign_out_bypass_cex :
    verifyJWT [] ("/sign-out") none = { responses := [], handlerInvoked := true } := by
  decide

/-- C4 amended: on every path other than /sign-out, a missing or
unverifiable token yields a single 401 and the handler is not invoked; when
the embedded user id resolves to no row a 401 is sent but — lacking a
`return` — the handler is still invoked; and /sign-out requests always pass
through with no check at all. -/
theorem verifyJWT_amended (users : List UserRow) (path : String) (token : Option Jwt)
    (hpath : path ≠ ("/sign-out")) :
    (token = none →
      verifyJWT users path token
        = { responses := [(401, ("Unauthorized request"))], handlerInvoked := false }) ∧
    (∀ t, token = some t → jwtVerify t Secret.access = none →
      verifyJWT users path token
        = { responses := [(401, ("Invalid access token"))], handlerInvoked := false }) ∧
    (∀ t d, token = some t → jwtVerify t Secret.access = some d →
      users.find? (fun u => u.id == d.userId) = none →
      verifyJWT users path token
        = { responses := [(401, ("Invalid Access Token"))], handlerInvoked := true }) ∧
    (∀ t d u, token = some t → jwtVerify t Secret.access = some d →
      users.find? (fun v => v.id == d.userId) = some u →
      verifyJWT users path token = { responses := [], handlerInvoked := true }) ∧
    verifyJWT users ("/sign-out") token = { responses := [], handlerInvoked := true } := by
  refine ⟨?_, ?_, ?_, ?_, ?_⟩
  · rintro rfl
    simp [verifyJWT, hpath]
  · rintro t rfl hver
    simp [verifyJWT, hpath, hver]
  · rintro t d rfl hver hfind
    simp [verifyJWT, hpath, hver, hfind]
  · rintro t d u rfl hver hfind
    simp [verifyJWT, hpath, hver, hfind]
  · simp [verifyJWT]

/-- C4 amended, witness: a token-less request to a non-sign-out path is
rejected with 401 and the handler is not invoked. -/
theorem verifyJWT_amended_witness :
    verifyJWT [] ("/user/1") none
      = { responses := [(401, ("Unauthorized request"))], handlerInvoked := false } :=
  (verifyJWT_amended [] ("/user/1") none (by decide)).1 rfl

/-- C5 counterexample: signing up with the demo user's email and entirely
different other fields fails through the generic handler with status 500 —
not a 409 ConflictError — though indeed no row is inserted. -/
theorem signUp_duplicate_email_no_conflict_status_cex :
    signUp (fun p => ("h:") ++ p) (fun _ => none) 2 [demoUser] duplicateSignUpRequest
      = (SignUpResult.failure 500 ("Something went wrong while signing up"), [demoUser]) := by
  decide

/-- C5 amended: for any sign-up request whose required fields are all
supplied and whose email belongs to an existing user, `checkUserExistsUtils`
throws a plain Error, which the generic handler maps to the 500 fallback
response; no users row is inserted, whatever the other fields are. -/
theorem signUp_duplicate_email_500 (hash : String → String)
    (upload : String → Option String) (newId : Nat) (users : List UserRow)
    (r : SignUpRequest) (u : UserRow)
    (h1 : r.firstname ≠ "") (h2 : r.lastname ≠ "") (h3 : r.email ≠ "")
    (h4 : r.password ≠ "") (h5 : r.role ≠ "")
    (hdup : findUserByEmail users r.email = some u) :
    signUp hash upload newId users r
      = (SignUpResult.failure 500 ("Something went wrong while signing up"), users) := by
  have hval : validateRequiredFieldsUtils
      [(("firstname"), r.firstname), (("lastname"), r.lastname), (("email"), r.email),
       (("password"), r.password), (("role"), r.role)] = none := by
    refine validateRequiredFieldsUtils_none _ ?_
    intro f hf
    simp only [List.mem_cons, List.not_mem_nil, or_false] at hf
    rcases hf with rfl | rfl | rfl | rfl | rfl
    · exact h1
    · exact h2
    · exact h3
    · exact h4
    · exact h5
  simp [signUp, hval, checkUserExistsUtils_dup users r.email u hdup, handleError]

/-- C5 amended, witness at the duplicate demo request. -/
theorem signUp_duplicate_email_500_witness :
    signUp (fun p => ("h:") ++ p) (fun _ => none) 2 [demoUser] duplicateSignUpRequest
      = (SignUpResult.failure 500 ("Something went wrong while signing up"), [demoUser]) :=
  signUp_duplicate_email_500 (fun p => ("h:") ++ p) (fun _ => none) 2 [demoUser]
    duplicateSignUpRequest demoUser
    (by decide) (by decide) (by decide) (by decide) (by decide) (by decide)

/-- The columns of the sign-up RETURNING projection, by name. -/
theorem signUpReturning_keys (u : UserRow) :
    (signUpReturning u).map Prod.fst
      = [("id"), ("email"), ("firstname"), ("lastname"), ("avatar")] := rfl

/-- C6: a successful sign-up responds 201 with exactly the created row's
public columns id, email, firstname, lastname, avatar — there is no password
column in the response data (neither plaintext nor hash). -/
theorem signUp_success_public_fields (hash : String → String)
    (upload : String → Option String) (newId : Nat) (users : List UserRow)
    (r : SignUpRequest)
    (h1 : r.firstname ≠ "") (h2 : r.lastname ≠ "") (h3 : r.email ≠ "")
    (h4 : r.password ≠ "") (h5 : r.role ≠ "")
    (hfresh : findUserByEmail users r.email = none) :
    ∃ row : UserRow,
      (signUp hash upload newId users r).1
        = SignUpResult.success 201 (signUpReturning row) ("User signed up successfully") ∧
      row.email = r.email ∧
      (signUpReturning row).map Prod.fst
        = [("id"), ("email"), ("firstname"), ("lastname"), ("avatar")] ∧
      ("password") ∉ (signUpReturning row).map Prod.fst := by
  have hval : validateRequiredFieldsUtils
      [(("firstname"), r.firstname), (("lastname"), r.lastname), (("email"), r.email),
       (("password"), r.password), (("role"), r.role)] = none := by
    refine validateRequiredFieldsUtils_none _ ?_
    intro f hf
    simp only [List.mem_cons, List.not_mem_nil, or_false] at hf
    rcases hf with rfl | rfl | rfl | rfl | rfl
    · exact h1
    · exact h2
    · exact h3
    · exact h4
    · exact h5
  refine ⟨{ id := newId, firstname := r.firstname, lastname := r.lastname,
            email := r.email, password := hash r.password,
            avatar := (match r.avatarFile with | some p => upload p | none => none),
            phone_number := none, role := r.role, is_verified := false,
            refresh_token := none, created_at := 0 }, ?_, rfl, signUpReturning_keys _, ?_⟩
  · simp [signUp, hval, checkUserExistsUtils_fresh users r.email hfresh]
  · rw [signUpReturning_keys]
    decide

/-- C6 witness at the spec's Jane Doe scenario. -/
theorem signUp_success_public_fields_witness :
    ∃ row : UserRow,
      (signUp (fun p => ("h:") ++ p) (fun _ => none) 1 [] janeSignUpRequest).1
        = SignUpResult.success 201 (signUpReturning row) ("User signed up successfully") ∧
      row.email = janeSignUpRequest.email ∧
      (signUpReturning row).map Prod.fst
        = [("id"), ("email"), ("firstname"), ("lastname"), ("avatar")] ∧
      ("password") ∉ (signUpReturning row).map Prod.fst :=
  signUp_success_public_fields (fun p => ("h:") ++ p) (fun _ => none) 1 [] janeSignUpRequest
    (by decide) (by decide) (by decide) (by decide) (by decide) (by decide)

/-! ## Claims about the OTP generator and the user read endpoints (C8 — C10) -/

/-- C8: with no character class enabled the generator throws its error;
every generated string has exactly the requested length, draws every
character from the enabled alphabet, and never starts with the digit zero
when digits are enabled. -/
theorem otpGenerator_spec (n : Nat) (o : GenerateOptions) (rand : List Nat)
    (hn : 1 ≤ n) :
    ((o.digits = false ∧ o.lowerCaseAlphabets = false ∧ o.upperCaseAlphabets = false ∧
        o.specialChars = false) →
      otpGenerator n o rand
        = OtpOutcome.err ("No characters available to generate password. Check your options.")) ∧
    (∀ s, otpGenerator n o rand = OtpOutcome.generated s →
      s.length = n ∧ (∀ c ∈ s.toList, c ∈ (allowedChars o).toList) ∧
      (o.digits = true → s.toList.head? ≠ some ('0'))) := by
  constructor
  · rintro ⟨hd, hl, hu2, hs⟩
    have hac : allowedChars o = "" := by
      rw [allowedChars, hd, hl, hu2, hs]
      decide
    unfold otpGenerator
    rw [hac]
    rfl
  · intro s hgen
    unfold otpGenerator at hgen
    split at hgen
    · exact absurd hgen (by simp)
    · rename_i hne'
      have hne : (allowedChars o).toList ≠ [] := by
        intro h0
        exact hne' (by rw [h0]; rfl)
      split at hgen
      · rename_i cs hcs
        cases hgen
        obtain ⟨hlen, hmem, hhead⟩ :=
          otpLoop_sound ((allowedChars o).toList) o.digits n rand [] cs hne
            (Nat.zero_le n) (by intro c hc; cases hc) (by intro h; simp) hcs
        exact ⟨hlen, hmem, hhead⟩
      · exact absurd hgen (by simp)

/-- C8 witness: a six-character code generated with the controller's option
set (digits, lower case, specials) from a concrete random stream. -/
theorem otpGenerator_spec_witness :
    ("123456" : String).length = 6 ∧
    (∀ c ∈ ("123456" : String).toList, c ∈ (allowedChars controllerOtpOptions).toList) ∧
    (controllerOtpOptions.digits = true → ("123456" : String).toList.head? ≠ some ('0')) :=
  (otpGenerator_spec 6 controllerOtpOptions [1, 2, 3, 4, 5, 6] (by decide)).2
    ("123456") (by decide)

/-- C9 counterexample: reading a user id that matches no row answers 200
with empty data — not the 404 the spec calls for. -/
theorem getUserById_missing_row_cex :
    getUserById [] 1 = (200, none) ∧ (getUserById [] 1).1 ≠ 404 := by
  decide

/-- The columns of the user-profile SELECT projection, by name. -/
theorem profileColumnsRow_keys (u : UserRow) :
    (profileColumnsRow u).map Prod.fst
      = [("id"), ("avatar"), ("firstname"), ("lastname"), ("email"), ("phone_number"),
         ("is_verified"), ("created_at")] := rfl

/-- C9 amended: the profile read always answers 200; its data is empty
exactly when no row matches the id, and when a row matches, the returned
columns are the eight non-sensitive ones — neither password nor
refresh_token is among them. -/
theorem getUserById_amended (users : List UserRow) (i : Nat) :
    (getUserById users i).1 = 200 ∧
    ((getUserById users i).2 = none ↔ users.find? (fun u => u.id == i) = none) ∧
    (∀ u, users.find? (fun v => v.id == i) = some u →
      (getUserById users i).2 = some (profileColumnsRow u) ∧
      ("password") ∉ (profileColumnsRow u).map Prod.fst ∧
      ("refresh_token") ∉ (profileColumnsRow u).map Prod.fst) := by
  refine ⟨rfl, ?_, ?_⟩
  · simp [getUserById]
  · intro u hu
    refine ⟨by simp [getUserById, hu], ?_, ?_⟩
    · rw [profileColumnsRow_keys]
      decide
    · rw [profileColumnsRow_keys]
      decide

/-- C10: the all-users listing answers 200 and contains exactly the
projections of the rows with `is_verified = true` and `role = 'user'` —
admins, drivers and unverified rows never appear — and the projected columns
never include password or refresh_token. -/
theorem getAllUsers_verified_user_rows (users : List UserRow) (u : UserRow) :
    (getAllUsers users).1 = 200 ∧
    (∀ row, row ∈ (getAllUsers users).2 ↔
      ∃ v, v ∈ users ∧ v.is_verified = true ∧ v.role = ("user") ∧
        row = profileColumnsRow v) ∧
    ("password") ∉ (profileColumnsRow u).map Prod.fst ∧
    ("refresh_token") ∉ (profileColumnsRow u).map Prod.fst := by
  refine ⟨rfl, ?_, by rw [profileColumnsRow_keys]; decide,
    by rw [profileColumnsRow_keys]; decide⟩
  intro row
  simp only [getAllUsers, List.mem_map, List.mem_filter, Bool.and_eq_true, beq_iff_eq]
  constructor
  · rintro ⟨v, ⟨hv, hver, hrole⟩, rfl⟩
    exact ⟨v, hv, hver, hrole, rfl⟩
  · rintro ⟨v, hv, hver, hrole, rfl⟩
    exact ⟨v, ⟨hv, hver, hrole⟩, rfl⟩

end RydeSpec
